import Mathlib

/-!
Shallow embedding of src/bot.py, a Bybit TradingView webhook bot
(Flask endpoint, long-only, 3x leverage).  Monetary quantities are
modelled as rationals, exchange responses as explicit data passed in an
environment, and the sequence of exchange calls the handler makes as an
explicit trace.  A Python exception escaping to the transport layer is
modelled as the Option value none.
-/

set_option maxRecDepth 10000

attribute [local semireducible] Rat.add Rat.mul Rat.sub Rat.inv Rat.ofScientific

/-- Leverage constant for long positions, bot.py line 22. -/
def LONG_LEVERAGE : ℚ := 3

/-- Receive window constant, bot.py line 17. -/
def RECV_WINDOW : String := "5000"

/-- One execution (fill) of an order, as consumed by the webhook handler:
execPrice and execQty are mandatory fields (bot.py lines 170 and 213 index
them directly), execFee is optional (line 218 uses a default of 0). -/
structure Fill where
  execPrice : ℚ
  execQty : ℚ
  execFee : Option ℚ
deriving DecidableEq

/-- One entry of the position list, with the fields the close path reads
(bot.py lines 188, 193, 194). -/
structure Position where
  side : String
  size : ℚ
  avgPrice : ℚ
deriving DecidableEq

/-- Result object of an order-creation response (bot.py line 167 and 210
read result.orderId with a default of the empty string). -/
structure OrderResult where
  orderId : Option String
deriving DecidableEq

/-- Parsed JSON of an order-creation response: retCode may be missing
(data.get), and the result object may be missing, in which case the
success branch of the handler raises a KeyError (bot.py lines 167, 210
index resp_data with a bare subscript). -/
structure OrderResp where
  retCode : Option Int
  result : Option OrderResult
deriving DecidableEq

/-- Reason attached to an error or ignored response: either a fixed text
or the raw rejection payload of the exchange (bot.py lines 165, 208). -/
inductive Reason where
  | text (s : String)
  | payload (r : OrderResp)
deriving DecidableEq

/-- Values reported for an opened long: reconciled average entry price and
percentage of the deposit committed (bot.py lines 170 to 180). -/
structure OpenReport where
  avgPrice : ℚ
  pct : ℚ
deriving DecidableEq

/-- Values reported for a closed long: reconciled exit price, gross PnL,
total fee, net PnL and percentage change (bot.py lines 213 to 225). -/
structure CloseReport where
  exitPrice : ℚ
  pnl : ℚ
  fee : ℚ
  netPnl : ℚ
  pctChange : ℚ
deriving DecidableEq

/-- The JSON body and HTTP status code returned by the webhook handler,
together with the values it would report to the operator. -/
structure Response where
  status : String
  reason : Option Reason
  httpCode : Nat
  openRep : Option OpenReport
  closeRep : Option CloseReport
deriving DecidableEq

/-- One outbound exchange call made by the handler, in order of issue. -/
inductive Call where
  | setLeverage
  | walletBalance
  | symbolInfo
  | tickerPrice
  | positionsList
  | orderCreate (side : String) (qty : ℚ) (reduceOnly : Bool)
  | execList (orderId : String)
deriving DecidableEq

/-- The exchange data visible to one webhook invocation: the values the
wrapped fetch helpers return, and the parsed responses to the two
possible order submissions. -/
structure Env where
  balance : ℚ
  minOrderQty : ℚ
  qtyStep : ℚ
  lastPrice : ℚ
  positions : List Position
  openOrderResp : OrderResp
  closeOrderResp : OrderResp
  openExecs : List Fill
  closeExecs : List Fill

/-- The two fields of the webhook JSON body that the handler reads
(bot.py lines 125, 126); a missing field is none. -/
structure Input where
  symbol : Option String
  side : Option String

/-- ASCII lowercasing, the embedding of the Python lower method as used on
the side field (bot.py line 126). -/
def strLower (s : String) : String :=
  String.mk (s.data.map Char.toLower)

/-- Sum of the executed quantities of a list of fills (bot.py lines 170,
213, the divisor of the weighted mean). -/
def sumExecQty (execs : List Fill) : ℚ :=
  (execs.map Fill.execQty).sum

/-- Sum of price times quantity over a list of fills (bot.py lines 170,
213, the dividend of the weighted mean). -/
def sumPriceQty (execs : List Fill) : ℚ :=
  (execs.map fun e => e.execPrice * e.execQty).sum

/-- Sum of the fee fields of a list of fills, a missing fee counting as
zero (bot.py line 218). -/
def feeSum (execs : List Fill) : ℚ :=
  (execs.map fun e => (e.execFee.getD 0)).sum

/-- Average execution price reconciliation as inlined twice in the handler
(bot.py lines 169 to 172 and 212 to 215): the quantity-weighted mean over
a non-empty fill list, the fallback price when the list is empty, and a
ZeroDivisionError (none) when the list is non-empty but the quantities sum
to zero. -/
def reconcileAvg (execs : List Fill) (fallback : ℚ) : Option ℚ :=
  if execs.isEmpty then some fallback
  else if sumExecQty execs = 0 then none
  else some (sumPriceQty execs / sumExecQty execs)

/-- Order quantity of the open path (bot.py line 151): floor the target
raw quantity to a multiple of the step, then clamp to the minimum. -/
def sizeQty (balance lev price step minq : ℚ) : ℚ :=
  max minq (step * ((⌊balance * lev / (price * step)⌋ : ℤ) : ℚ))

/-- The open-long branch of the handler (bot.py lines 133 to 183),
returning the response (none for an escaped exception) and the trace of
exchange calls made. -/
def openPath (env : Env) : Option Response × List Call :=
  let t0 := [Call.setLeverage, Call.walletBalance, Call.symbolInfo, Call.tickerPrice]
  let balance := env.balance
  let minq := env.minOrderQty
  let step := env.qtyStep
  let price := env.lastPrice
  if price ≤ 0 ∨ step ≤ 0 then
    (some ⟨"error", some (Reason.text "invalid price or step"), 200, none, none⟩, t0)
  else
    let qty := sizeQty balance LONG_LEVERAGE price step minq
    let t1 := t0 ++ [Call.orderCreate "Buy" qty false]
    let resp := env.openOrderResp
    if resp.retCode ≠ some 0 then
      (some ⟨"error", some (Reason.payload resp), 200, none, none⟩, t1)
    else
      match resp.result with
      | none => (none, t1)
      | some res =>
        let t2 := t1 ++ [Call.execList (res.orderId.getD "")]
        match reconcileAvg env.openExecs price with
        | none => (none, t2)
        | some avg =>
          let pct := if 0 < balance then qty * avg / LONG_LEVERAGE / balance * 100 else 0
          (some ⟨"ok", none, 200, some ⟨avg, pct⟩, none⟩, t2)

/-- The close-long branch of the handler (bot.py lines 186 to 228). -/
def closePath (env : Env) : Option Response × List Call :=
  let t0 := [Call.positionsList]
  match env.positions.find? (fun p => p.side == "Buy" && decide (0 < p.size)) with
  | none => (some ⟨"no_position", none, 200, none, none⟩, t0)
  | some pos =>
    let qty := pos.size
    let entry := pos.avgPrice
    let t1 := t0 ++ [Call.walletBalance]
    let balanceBefore := env.balance
    let t2 := t1 ++ [Call.orderCreate "Sell" qty true]
    let resp := env.closeOrderResp
    if resp.retCode ≠ some 0 then
      (some ⟨"error", some (Reason.payload resp), 200, none, none⟩, t2)
    else
      match resp.result with
      | none => (none, t2)
      | some res =>
        let t3 := t2 ++ [Call.execList (res.orderId.getD "")]
        match reconcileAvg env.closeExecs entry with
        | none => (none, t3)
        | some exitPrice =>
          let pnl := (exitPrice - entry) * qty
          let fee := feeSum env.closeExecs
          let netPnl := pnl - fee
          let pctChange := if 0 < balanceBefore then netPnl / balanceBefore * 100 else 0
          (some ⟨"ok", none, 200, none, some ⟨exitPrice, pnl, fee, netPnl, pctChange⟩⟩, t3)

/-- The webhook handler (bot.py lines 121 to 231): dispatch on the symbol
and on the lowercased side command. -/
def webhook (inp : Input) (env : Env) : Option Response × List Call :=
  let side_cmd := strLower (inp.side.getD "")
  if inp.symbol = none ∨ inp.symbol = some "" ∨ side_cmd = "" then
    (some ⟨"ignored", some (Reason.text "missing symbol or side"), 200, none, none⟩, [])
  else if side_cmd = "buy" then openPath env
  else if side_cmd = "exit" then closePath env
  else (some ⟨"ignored", none, 200, none, none⟩, [])

/-- The order-creation calls of a trace, in order, as side, quantity and
reduce-only flag. -/
def orderCalls (tr : List Call) : List (String × ℚ × Bool) :=
  tr.filterMap fun c =>
    match c with
    | Call.orderCreate s q ro => some (s, q, ro)
    | _ => none

/-- The execution-list (fill query) calls of a trace, in order. -/
def execCalls (tr : List Call) : List String :=
  tr.filterMap fun c =>
    match c with
    | Call.execList oid => some oid
    | _ => none

/-- One entry of the wallet-balance result list: the balance field may be
missing, in which case bot.py line 73 defaults it to 0. -/
structure WalletEntry where
  totalAvailableBalance : Option ℚ
deriving DecidableEq

/-- Result object of a wallet-balance response. -/
structure WalletResult where
  list : List WalletEntry
deriving DecidableEq

/-- Parsed JSON of a wallet-balance response: retCode may be missing, and
the result object may be missing or hold an empty list, in which case the
success branch of get_wallet_balance raises (bot.py line 73 indexes
result, list and element 0 with bare subscripts). -/
structure WalletResp where
  retCode : Option Int
  result : Option WalletResult
deriving DecidableEq

/-- The balance fetch helper get_wallet_balance (bot.py lines 70 to 76):
on a success retCode it reads the first list entry (raising, i.e. none,
when the result object or the entry is missing), otherwise it logs and
returns 0. -/
def get_wallet_balance (resp : WalletResp) : Option ℚ :=
  if resp.retCode = some 0 then
    match resp.result with
    | none => none
    | some r =>
      match r.list with
      | [] => none
      | e :: _ => some (e.totalAvailableBalance.getD 0)
  else
    some 0

/-- Bytes of an ASCII string, the embedding of the Python encode call for
the ASCII payloads the bot signs. -/
def strBytes (s : String) : List Nat :=
  s.data.map Char.toNat

/-- Right rotation of a 32-bit word. -/
def rotr32 (n x : Nat) : Nat :=
  (x >>> n) ||| ((x <<< (32 - n)) % 4294967296)

/-- The SHA-256 choice function. -/
def shaCh (x y z : Nat) : Nat := (x &&& y) ^^^ ((x ^^^ 4294967295) &&& z)

/-- The SHA-256 majority function. -/
def shaMaj (x y z : Nat) : Nat := (x &&& y) ^^^ (x &&& z) ^^^ (y &&& z)

/-- The SHA-256 big Sigma 0 function. -/
def shaBigSigma0 (x : Nat) : Nat := rotr32 2 x ^^^ rotr32 13 x ^^^ rotr32 22 x

/-- The SHA-256 big Sigma 1 function. -/
def shaBigSigma1 (x : Nat) : Nat := rotr32 6 x ^^^ rotr32 11 x ^^^ rotr32 25 x

/-- The SHA-256 small sigma 0 function. -/
def shaSmallSigma0 (x : Nat) : Nat := rotr32 7 x ^^^ rotr32 18 x ^^^ (x >>> 3)

/-- The SHA-256 small sigma 1 function. -/
def shaSmallSigma1 (x : Nat) : Nat := rotr32 17 x ^^^ rotr32 19 x ^^^ (x >>> 10)

/-- The 64 SHA-256 round constants, written in decimal. -/
def shaK : List Nat :=
  [1116352408, 1899447441, 3049323471, 3921009573, 961987163, 1508970993,
   2453635748, 2870763221, 3624381080, 310598401, 607225278, 1426881987,
   1925078388, 2162078206, 2614888103, 3248222580, 3835390401, 4022224774,
   264347078, 604807628, 770255983, 1249150122, 1555081692, 1996064986,
   2554220882, 2821834349, 2952996808, 3210313671, 3336571891, 3584528711,
   113926993, 338241895, 666307205, 773529912, 1294757372, 1396182291,
   1695183700, 1986661051, 2177026350, 2456956037, 2730485921, 2820302411,
   3259730800, 3345764771, 3516065817, 3600352804, 4094571909, 275423344,
   430227734, 506948616, 659060556, 883997877, 958139571, 1322822218,
   1537002063, 1747873779, 1955562222, 2024104815, 2227730452, 2361852424,
   2428436474, 2756734187, 3204031479, 3329325298]

/-- The initial SHA-256 state, written in decimal. -/
def shaH0 : List Nat :=
  [1779033703, 3144134277, 1013904242, 2773480762, 1359893119,
   2600822924, 528734635, 1541459225]

/-- Big-endian 8-byte encoding of a length. -/
def be8 (n : Nat) : List Nat :=
  [(n >>> 56) &&& 255, (n >>> 48) &&& 255, (n >>> 40) &&& 255, (n >>> 32) &&& 255,
   (n >>> 24) &&& 255, (n >>> 16) &&& 255, (n >>> 8) &&& 255, n &&& 255]

/-- SHA-256 message padding to a multiple of 64 bytes. -/
def padMessage (msg : List Nat) : List Nat :=
  msg ++ [128] ++ List.replicate ((119 - msg.length % 64) % 64) 0 ++ be8 (8 * msg.length)

/-- Group bytes into big-endian 32-bit words. -/
def bytesToWords : List Nat → List Nat
  | a :: b :: c :: d :: rest => (((a * 256 + b) * 256 + c) * 256 + d) :: bytesToWords rest
  | _ => []

/-- One step of the SHA-256 message schedule extension. -/
def extendStep (w : List Nat) : Nat :=
  let l := w.length
  (shaSmallSigma1 (w.getD (l - 2) 0) + w.getD (l - 7) 0 +
    shaSmallSigma0 (w.getD (l - 15) 0) + w.getD (l - 16) 0) % 4294967296

/-- Iterate the message schedule extension. -/
def extendLoop : Nat → List Nat → List Nat
  | 0, w => w
  | n + 1, w => extendLoop n (w ++ [extendStep w])

/-- Extend a 16-word block to the 64-word SHA-256 schedule. -/
def shaSchedule (block : List Nat) : List Nat := extendLoop 48 block

/-- The 64 SHA-256 compression rounds over the schedule. -/
def shaRounds : List Nat → List Nat → List Nat → List Nat
  | k :: ks, w :: ws, [a, b, c, d, e, f, g, h] =>
    let t1 := (h + shaBigSigma1 e + shaCh e f g + k + w) % 4294967296
    let t2 := (shaBigSigma0 a + shaMaj a b c) % 4294967296
    shaRounds ks ws [(t1 + t2) % 4294967296, a, b, c, (d + t1) % 4294967296, e, f, g]
  | _, _, st => st

/-- Compress one 16-word block into the running state. -/
def shaCompress (h : List Nat) (block : List Nat) : List Nat :=
  List.zipWith (fun x y => (x + y) % 4294967296) h (shaRounds shaK (shaSchedule block) h)

/-- Fold the compression over all 16-word blocks. -/
def shaBlocks : List Nat → List Nat → List Nat
  | h, w0 :: w1 :: w2 :: w3 :: w4 :: w5 :: w6 :: w7 :: w8 :: w9 :: w10 :: w11 :: w12 :: w13 :: w14 :: w15 :: rest =>
    shaBlocks (shaCompress h [w0, w1, w2, w3, w4, w5, w6, w7, w8, w9, w10, w11, w12, w13, w14, w15]) rest
  | h, _ => h

/-- Big-endian bytes of a 32-bit word. -/
def wordBytes (n : Nat) : List Nat :=
  [(n >>> 24) &&& 255, (n >>> 16) &&& 255, (n >>> 8) &&& 255, n &&& 255]

/-- SHA-256 digest of a byte list. -/
def sha256Bytes (msg : List Nat) : List Nat :=
  (shaBlocks shaH0 (bytesToWords (padMessage msg))).flatMap wordBytes

/-- Pad or hash an HMAC key to the 64-byte block size. -/
def hmacKeyPad (key : List Nat) : List Nat :=
  let k0 := if 64 < key.length then sha256Bytes key else key
  k0 ++ List.replicate (64 - k0.length) 0

/-- HMAC-SHA256 of a message under a key, the embedding of the hmac.new
call of bot.py line 35. -/
def hmacSha256 (key msg : List Nat) : List Nat :=
  let k0 := hmacKeyPad key
  sha256Bytes ((k0.map fun b => b ^^^ 92) ++ sha256Bytes ((k0.map fun b => b ^^^ 54) ++ msg))

/-- Lowercase hex digit of a value below 16. -/
def hexChar (n : Nat) : Char :=
  if n < 10 then Char.ofNat (48 + n) else Char.ofNat (87 + n)

/-- Lowercase hex encoding of a byte list, the embedding of hexdigest. -/
def bytesToHex (bs : List Nat) : String :=
  String.mk (bs.flatMap fun b => [hexChar (b / 16), hexChar (b % 16)])

/-- The signature helper sign_request (bot.py lines 32 to 36).  The
timestamp is passed in rather than read from a clock.  A missing API key
makes the string concatenation of line 34 raise, and a missing secret
makes the encode call of line 35 raise, both modelled as none; the
returned signature is the hex HMAC-SHA256 of timestamp, key, receive
window and payload (the query string standing in when the payload string
is empty, the Python or of line 34). -/
def sign_request (apiKey secret : Option String) (ts : String)
    (payload_str : String) (query : String) : Option String :=
  match apiKey, secret with
  | some k, some s =>
    some (bytesToHex (hmacSha256 (strBytes s)
      (strBytes (ts ++ k ++ RECV_WINDOW ++ (if payload_str = "" then query else payload_str)))))
  | _, _ => none

/-- The query string http_get signs (bot.py line 41): key=value pairs
joined with an ampersand in the given dictionary order. -/
def buildQuery (params : List (String × String)) : String :=
  String.intercalate "&" (params.map fun p => p.1 ++ "=" ++ p.2)

/-- The signature produced by http_get (bot.py lines 39 to 42). -/
def http_get_signature (apiKey secret : Option String) (ts : String)
    (params : List (String × String)) : Option String :=
  sign_request apiKey secret ts "" (buildQuery params)

/-- JSON values appearing in the request bodies the bot posts. -/
inductive JVal where
  | str (s : String)
  | num (n : Int)
  | bool (b : Bool)
deriving DecidableEq

/-- Compact JSON serialization of one value. -/
def jvalStr : JVal → String
  | JVal.str s => "\"" ++ s ++ "\""
  | JVal.num n => toString n
  | JVal.bool b => if b then "true" else "false"

/-- Comparison of body entries by key, the order json.dumps with sorted
keys arranges them in. -/
def keyLE (a b : String × JVal) : Prop := a.1 ≤ b.1

instance : DecidableRel keyLE := fun a b => String.decidableLE a.1 b.1

instance : IsTotal (String × JVal) keyLE := ⟨fun a b => le_total a.1 b.1⟩

instance : IsTrans (String × JVal) keyLE := ⟨fun _ _ _ h1 h2 => le_trans h1 h2⟩

/-- Strict comparison of body entries by key. -/
def keyLT (a b : String × JVal) : Prop := a.1 < b.1

instance : IsAntisymm (String × JVal) keyLT := ⟨fun _ _ h1 h2 => absurd h2 (lt_asymm h1)⟩

/-- Sort body entries by key. -/
def sortByKey (l : List (String × JVal)) : List (String × JVal) :=
  List.insertionSort keyLE l

/-- The compact key-sorted serialization json.dumps produces with the
separators and sort_keys arguments of bot.py line 56. -/
def json_dumps_sorted (body : List (String × JVal)) : String :=
  "\x7b" ++ String.intercalate ","
    ((sortByKey body).map fun p => "\"" ++ p.1 ++ "\":" ++ jvalStr p.2) ++ "\x7d"

/-- The signature produced by http_post (bot.py lines 54 to 57). -/
def http_post_signature (apiKey secret : Option String) (ts : String)
    (body : List (String × JVal)) : Option String :=
  sign_request apiKey secret ts (json_dumps_sorted body) ""

/-- A fully successful exchange environment: an open long of size 3/50 at
entry 50000, balance 1000, and closing fills at 51000 with fee 1/2,
matching the end-to-end scenario of the specification. -/
def envMain : Env :=
  { balance := 1000, minOrderQty := 1/1000, qtyStep := 1/1000, lastPrice := 50000,
    positions := [⟨"Buy", 3/50, 50000⟩],
    openOrderResp := ⟨some 0, some ⟨some "oid1"⟩⟩,
    closeOrderResp := ⟨some 0, some ⟨some "oid2"⟩⟩,
    openExecs := [⟨50000, 3/50, some (1/10)⟩],
    closeExecs := [⟨51000, 3/50, some (1/2)⟩] }

/-- An environment whose minimum order quantity 1 is not a multiple of
the step 2, with a balance too small for one step. -/
def envC1 : Env :=
  { balance := 1/10, minOrderQty := 1, qtyStep := 2, lastPrice := 1, positions := [],
    openOrderResp := ⟨some 0, some ⟨some "oid"⟩⟩,
    closeOrderResp := ⟨some 0, some ⟨some "oid"⟩⟩,
    openExecs := [⟨1, 1, none⟩], closeExecs := [] }

/-- An environment with no open long of positive size. -/
def envNoPos : Env :=
  { envMain with positions := [⟨"Sell", 1, 100⟩, ⟨"Buy", 0, 100⟩] }

/-- An environment in which both order submissions are rejected. -/
def envRej : Env :=
  { envMain with openOrderResp := ⟨some 10001, none⟩, closeOrderResp := ⟨some 10001, none⟩ }

/-- An environment in which the execution lists are still empty. -/
def envEmptyExecs : Env :=
  { envMain with openExecs := [], closeExecs := [] }

/-- With a non-empty symbol and a side that lowercases to buy, the
handler runs the open path. -/
theorem webhook_buy (inp : Input) (env : Env) (sym : String)
    (hs : inp.symbol = some sym) (hne : sym ≠ "")
    (hb : strLower (inp.side.getD "") = "buy") :
    webhook inp env = openPath env := by
  simp [webhook, hs, hne, hb]

/-- With a non-empty symbol and a side that lowercases to exit, the
handler runs the close path. -/
theorem webhook_exit (inp : Input) (env : Env) (sym : String)
    (hs : inp.symbol = some sym) (hne : sym ≠ "")
    (hb : strLower (inp.side.getD "") = "exit") :
    webhook inp env = closePath env := by
  simp [webhook, hs, hne, hb]

/-- Every response of the open path carries HTTP status 200. -/
theorem openPath_code (env : Env) (r : Response)
    (h : (openPath env).1 = some r) : r.httpCode = 200 := by
  unfold openPath at h
  dsimp only at h
  split at h
  · cases h; rfl
  · split at h
    · cases h; rfl
    · split at h
      · cases h
      · split at h
        · cases h
        · cases h; rfl

/-- Every response of the close path carries HTTP status 200. -/
theorem closePath_code (env : Env) (r : Response)
    (h : (closePath env).1 = some r) : r.httpCode = 200 := by
  unfold closePath at h
  dsimp only at h
  split at h
  · cases h; rfl
  · split at h
    · cases h; rfl
    · split at h
      · cases h
      · split at h
        · cases h
        · cases h; rfl

/-- Past the market-data validation, the open path submits exactly one
order: a buy of the sized quantity without reduce-only. -/
theorem openPath_orderCalls (env : Env) (hp : 0 < env.lastPrice) (hs : 0 < env.qtyStep) :
    orderCalls (openPath env).2 =
      [("Buy", sizeQty env.balance LONG_LEVERAGE env.lastPrice env.qtyStep env.minOrderQty, false)] := by
  unfold openPath
  dsimp only
  split
  · next hcond =>
    rcases hcond with h | h
    · exact absurd h hp.not_le
    · exact absurd h hs.not_le
  · split
    · rfl
    · split
      · rfl
      · split
        · rfl
        · rfl

/-- The SHA-256 embedding reproduces the reference digest of the empty
message. -/
theorem sha256_test_empty :
    bytesToHex (sha256Bytes []) =
      "e3b0c44298fc1c149afbf4c8996fb92427ae41e4649b934ca495991b7852b855" := by decide

/-- The SHA-256 embedding reproduces the reference digest of the
three-byte message abc. -/
theorem sha256_test_abc :
    bytesToHex (sha256Bytes (strBytes "abc")) =
      "ba7816bf8f01cfea414140de5dae2223b00361a396177a9cb410ff61f20015ad" := by decide

/-- The HMAC-SHA256 embedding reproduces the reference authentication
code of the standard quick-brown-fox test vector. -/
theorem hmac_test_vector :
    bytesToHex (hmacSha256 (strBytes "key")
      (strBytes "The quick brown fox jumps over the lazy dog")) =
      "f7bc83f430538424b13298e6aa6fb143ef4d59a14946175997479dbc2d1a3cd8" := by decide

/-- Sorting by key is invariant under permutation of a body whose keys
are distinct. -/
theorem sortByKey_perm_eq (l1 l2 : List (String × JVal)) (hp : l1.Perm l2)
    (hn : (l1.map Prod.fst).Nodup) : sortByKey l1 = sortByKey l2 := by
  have hs1 : List.Sorted keyLE (sortByKey l1) := List.sorted_insertionSort keyLE l1
  have hs2 : List.Sorted keyLE (sortByKey l2) := List.sorted_insertionSort keyLE l2
  have hperm : (sortByKey l1).Perm (sortByKey l2) :=
    (List.perm_insertionSort keyLE l1).trans (hp.trans (List.perm_insertionSort keyLE l2).symm)
  have hn1 : ((sortByKey l1).map Prod.fst).Nodup :=
    (((List.perm_insertionSort keyLE l1).map Prod.fst).nodup_iff).mpr hn
  have hn2 : ((sortByKey l2).map Prod.fst).Nodup :=
    ((hperm.map Prod.fst).nodup_iff).mp hn1
  have upgrade : ∀ l : List (String × JVal), List.Sorted keyLE l →
      (l.map Prod.fst).Nodup → List.Sorted keyLT l := by
    intro l hle hnd
    have hne : l.Pairwise fun a b => a.1 ≠ b.1 := List.pairwise_map.mp hnd
    exact (hle.and hne).imp fun h => lt_of_le_of_ne h.1 h.2
  exact List.eq_of_perm_of_sorted hperm (upgrade _ hs1 hn1) (upgrade _ hs2 hn2)

/-- The compact key-sorted serialization is invariant under permutation
of a body whose keys are distinct. -/
theorem json_dumps_sorted_perm (b1 b2 : List (String × JVal)) (hp : b1.Perm b2)
    (hn : (b1.map Prod.fst).Nodup) : json_dumps_sorted b1 = json_dumps_sorted b2 := by
  unfold json_dumps_sorted
  rw [sortByKey_perm_eq b1 b2 hp hn]

/-- C1 (amended): for positive balance, leverage, price and step, the
sized quantity equals max of minOrderQty and step times the floor of
balance times leverage over price times step; it is at least minOrderQty,
and it is an integer multiple of step whenever minOrderQty itself is; the
open path submits exactly this quantity. -/
theorem open_qty_correct :
    (∀ balance lev price step minq : ℚ, 0 < balance → 0 < lev → 0 < price → 0 < step →
      (minq ≤ sizeQty balance lev price step minq ∧
        ((∃ j : ℤ, minq = j * step) → ∃ k : ℤ, sizeQty balance lev price step minq = k * step))) ∧
    (∀ (inp : Input) (env : Env) (sym : String), inp.symbol = some sym → sym ≠ "" →
      strLower (inp.side.getD "") = "buy" → 0 < env.lastPrice → 0 < env.qtyStep →
      orderCalls (webhook inp env).2 =
        [("Buy", sizeQty env.balance LONG_LEVERAGE env.lastPrice env.qtyStep env.minOrderQty, false)]) := by
  constructor
  · intro b l p s m _ _ _ _
    constructor
    · exact le_max_left _ _
    · rintro ⟨j, rfl⟩
      rcases max_choice ((j : ℚ) * s) (s * ((⌊b * l / (p * s)⌋ : ℤ) : ℚ)) with h | h
      · exact ⟨j, by rw [sizeQty, h]⟩
      · exact ⟨⌊b * l / (p * s)⌋, by rw [sizeQty, h, mul_comm]⟩
  · intro inp env sym hs hne hcmd hp hst
    rw [webhook_buy inp env sym hs hne hcmd]
    exact openPath_orderCalls env hp hst

/-- C1 counterexample: with balance 1/10, leverage 3, price 1, step 2 and
minOrderQty 1 (which is not a multiple of the step), the open path
submits quantity 1, and 1 is not an integer multiple of the step 2, so
the unconditional multiple-of-step part of the claim fails. -/
theorem open_qty_counterexample :
    orderCalls (webhook ⟨some "BTCUSDT", some "buy"⟩ envC1).2 = [("Buy", 1, false)] ∧
    ¬ ∃ k : ℤ, (1 : ℚ) = k * 2 := by
  constructor
  · decide
  · rintro ⟨k, hk⟩
    have h2 : ((2 * k : ℤ) : ℚ) = 1 := by push_cast; linarith
    have h3 : (2 * k : ℤ) = 1 := by exact_mod_cast h2
    omega

/-- C1 witness: at balance 1000, leverage 3, price 50000, step 1/1000 and
minOrderQty 1/1000, the sized quantity is at least the minimum and a
multiple of the step, and the open path submits it. -/
theorem open_qty_correct_witness :
    (((1:ℚ)/1000 ≤ sizeQty 1000 3 50000 (1/1000) (1/1000)) ∧
      (∃ k : ℤ, sizeQty 1000 3 50000 (1/1000) (1/1000) = k * (1/1000))) ∧
    orderCalls (webhook ⟨some "BTCUSDT", some "buy"⟩ envMain).2 =
      [("Buy", sizeQty 1000 3 50000 (1/1000) (1/1000), false)] := by
  constructor
  · have h := open_qty_correct.1 1000 3 50000 (1/1000) (1/1000)
      (by norm_num) (by norm_num) (by norm_num) (by norm_num)
    exact ⟨h.1, h.2 ⟨1, by norm_num⟩⟩
  · exact open_qty_correct.2 ⟨some "BTCUSDT", some "buy"⟩ envMain "BTCUSDT" rfl
      (by decide) (by decide) (by decide) (by decide)

/-- C2: whenever the close path reports, the reported PnL is the exit
price minus the entry price of the selected long position times its size,
and the reported net PnL is that PnL minus the summed fees of the closing
fills, a missing fee counting as zero. -/
theorem close_pnl_correct (inp : Input) (env : Env) (sym : String) (pos : Position)
    (hs : inp.symbol = some sym) (hne : sym ≠ "")
    (hcmd : strLower (inp.side.getD "") = "exit")
    (hfind : env.positions.find? (fun p => p.side == "Buy" && decide (0 < p.size)) = some pos)
    (r : Response) (rep : CloseReport)
    (hr : (webhook inp env).1 = some r) (hrep : r.closeRep = some rep) :
    rep.pnl = (rep.exitPrice - pos.avgPrice) * pos.size ∧
    rep.netPnl = rep.pnl - feeSum env.closeExecs := by
  rw [webhook_exit inp env sym hs hne hcmd] at hr
  unfold closePath at hr
  rw [hfind] at hr
  dsimp only at hr
  split at hr
  · cases hr; cases hrep
  · split at hr
    · cases hr
    · split at hr
      · cases hr
      · cases hr; cases hrep; exact ⟨rfl, rfl⟩

/-- C2 witness: the end-to-end scenario of the specification, entry
50000, exit 51000, quantity 3/50, fee 1/2 and balance 1000, reports PnL
60, net PnL 119/2 and percentage change 119/20. -/
theorem close_pnl_correct_witness :
    (webhook ⟨some "BTCUSDT", some "exit"⟩ envMain).1 =
      some ⟨"ok", none, 200, none, some ⟨51000, 60, 1/2, 119/2, 119/20⟩⟩ ∧
    (60 : ℚ) = (51000 - 50000) * (3/50) ∧
    (119/2 : ℚ) = 60 - feeSum envMain.closeExecs := by
  refine ⟨by decide, ?_⟩
  have h := close_pnl_correct ⟨some "BTCUSDT", some "exit"⟩ envMain "BTCUSDT"
    ⟨"Buy", 3/50, 50000⟩ rfl (by decide) (by decide) (by decide)
    ⟨"ok", none, 200, none, some ⟨51000, 60, 1/2, 119/2, 119/20⟩⟩
    ⟨51000, 60, 1/2, 119/2, 119/20⟩ (by decide) rfl
  exact h

/-- C3 (amended): the reconciled average is the quantity-weighted mean
for every non-empty fill list whose quantities do not sum to zero, it is
the fill price for a single fill of nonzero quantity, and for an empty
fill list the fallback price is returned unchanged; on the open path the
empty-fills fallback is the last price, on the close path it is the
recorded entry price of the position. -/
theorem reconcile_correct :
    (∀ (execs : List Fill) (fb : ℚ), execs ≠ [] → sumExecQty execs ≠ 0 →
        reconcileAvg execs fb = some (sumPriceQty execs / sumExecQty execs)) ∧
    (∀ (p q : ℚ) (fee : Option ℚ) (fb : ℚ), q ≠ 0 →
        reconcileAvg [⟨p, q, fee⟩] fb = some p) ∧
    (∀ fb : ℚ, reconcileAvg [] fb = some fb) ∧
    (∀ (inp : Input) (env : Env) (sym : String) (res : OrderResult),
      inp.symbol = some sym → sym ≠ "" → strLower (inp.side.getD "") = "buy" →
      0 < env.lastPrice → 0 < env.qtyStep →
      env.openOrderResp.retCode = some 0 → env.openOrderResp.result = some res →
      env.openExecs = [] →
      ∃ r : Response, (webhook inp env).1 = some r ∧
        ∃ rep : OpenReport, r.openRep = some rep ∧ rep.avgPrice = env.lastPrice) ∧
    (∀ (inp : Input) (env : Env) (sym : String) (pos : Position) (res : OrderResult),
      inp.symbol = some sym → sym ≠ "" → strLower (inp.side.getD "") = "exit" →
      env.positions.find? (fun p => p.side == "Buy" && decide (0 < p.size)) = some pos →
      env.closeOrderResp.retCode = some 0 → env.closeOrderResp.result = some res →
      env.closeExecs = [] →
      ∃ r : Response, (webhook inp env).1 = some r ∧
        ∃ rep : CloseReport, r.closeRep = some rep ∧ rep.exitPrice = pos.avgPrice) := by
  refine ⟨?_, ?_, ?_, ?_, ?_⟩
  · intro execs fb hne hq
    simp [reconcileAvg, hne, hq]
  · intro p q fee fb hq
    simp [reconcileAvg, sumExecQty, sumPriceQty, hq, mul_div_assoc, div_self hq]
  · intro fb
    rfl
  · intro inp env sym res hs hne hcmd hp hst hrc hres hexec
    rw [webhook_buy inp env sym hs hne hcmd]
    unfold openPath
    dsimp only
    rw [if_neg (by simp [not_or, hp.not_le, hst.not_le]), if_neg (by simp [hrc]), hres]
    dsimp only
    rw [hexec]
    exact ⟨_, rfl, _, rfl, rfl⟩
  · intro inp env sym pos res hs hne hcmd hfind hrc hres hexec
    rw [webhook_exit inp env sym hs hne hcmd]
    unfold closePath
    rw [hfind]
    dsimp only
    rw [if_neg (by simp [hrc]), hres]
    dsimp only
    rw [hexec]
    exact ⟨_, rfl, _, rfl, rfl⟩

/-- C3 counterexample: a single fill of price 5 and executed quantity 0
makes the code divide by zero (a ZeroDivisionError, modelled as none)
instead of returning the fill price 5, so the unconditional single-fill
part of the claim fails. -/
theorem reconcile_counterexample :
    reconcileAvg [⟨5, 0, none⟩] 7 = none ∧ reconcileAvg [⟨5, 0, none⟩] 7 ≠ some 5 := by
  decide

/-- C3 witness: the weighted mean on the closing fill of the end-to-end
scenario, the single-fill case at price 42, the empty list with fallback
7, and the fallback behaviour of both paths on an environment with empty
execution lists. -/
theorem reconcile_correct_witness :
    reconcileAvg [⟨51000, 3/50, some (1/2)⟩] 50000 =
      some (sumPriceQty [⟨51000, 3/50, some (1/2)⟩] / sumExecQty [⟨51000, 3/50, some (1/2)⟩]) ∧
    reconcileAvg [⟨42, 2, none⟩] 7 = some 42 ∧
    reconcileAvg [] (7:ℚ) = some 7 ∧
    (∃ r : Response, (webhook ⟨some "BTCUSDT", some "buy"⟩ envEmptyExecs).1 = some r ∧
      ∃ rep : OpenReport, r.openRep = some rep ∧ rep.avgPrice = envEmptyExecs.lastPrice) ∧
    (∃ r : Response, (webhook ⟨some "BTCUSDT", some "exit"⟩ envEmptyExecs).1 = some r ∧
      ∃ rep : CloseReport, r.closeRep = some rep ∧
        rep.exitPrice = Position.avgPrice ⟨"Buy", 3/50, 50000⟩) := by
  refine ⟨?_, ?_, ?_, ?_, ?_⟩
  · exact reconcile_correct.1 [⟨51000, 3/50, some (1/2)⟩] 50000 (by decide) (by decide)
  · exact reconcile_correct.2.1 42 2 none 7 (by decide)
  · exact reconcile_correct.2.2.1 7
  · exact reconcile_correct.2.2.2.1 ⟨some "BTCUSDT", some "buy"⟩ envEmptyExecs "BTCUSDT"
      ⟨some "oid1"⟩ rfl (by decide) (by decide) (by decide) (by decide) (by decide) (by decide) rfl
  · exact reconcile_correct.2.2.2.2 ⟨some "BTCUSDT", some "exit"⟩ envEmptyExecs "BTCUSDT"
      ⟨"Buy", 3/50, 50000⟩ ⟨some "oid2"⟩ rfl (by decide) (by decide) (by decide)
      (by decide) (by decide) rfl

/-- C4: a close intent whose fetched position list holds no entry of side
Buy with positive size terminates with the no_position outcome and the
trace contains no order-creation call. -/
theorem close_no_position (inp : Input) (env : Env) (sym : String)
    (hs : inp.symbol = some sym) (hne : sym ≠ "")
    (hcmd : strLower (inp.side.getD "") = "exit")
    (hnone : ∀ p ∈ env.positions, ¬(p.side = "Buy" ∧ 0 < p.size)) :
    (webhook inp env).1 = some ⟨"no_position", none, 200, none, none⟩ ∧
    orderCalls (webhook inp env).2 = [] := by
  have hfind : env.positions.find? (fun p => p.side == "Buy" && decide (0 < p.size)) = none := by
    rw [List.find?_eq_none]
    intro p hp
    have h := hnone p hp
    simp only [Bool.and_eq_true, beq_iff_eq, decide_eq_true_eq]
    intro hcontra
    exact h hcontra
  rw [webhook_exit inp env sym hs hne hcmd]
  unfold closePath
  rw [hfind]
  exact ⟨rfl, rfl⟩

/-- C4 witness: an environment holding only a Sell entry and a Buy entry
of size zero yields the no_position outcome with no order created. -/
theorem close_no_position_witness :
    (webhook ⟨some "BTCUSDT", some "exit"⟩ envNoPos).1 =
      some ⟨"no_position", none, 200, none, none⟩ ∧
    orderCalls (webhook ⟨some "BTCUSDT", some "exit"⟩ envNoPos).2 = [] := by
  exact close_no_position ⟨some "BTCUSDT", some "exit"⟩ envNoPos "BTCUSDT" rfl
    (by decide) (by decide) (by decide)

/-- C5: on either path, a rejected order submission (retCode other than
success) makes the handler return the error outcome carrying the raw
rejection payload, and the trace contains no execution-list call. -/
theorem rejected_no_fill_query :
    (∀ (inp : Input) (env : Env) (sym : String), inp.symbol = some sym → sym ≠ "" →
      strLower (inp.side.getD "") = "buy" → 0 < env.lastPrice → 0 < env.qtyStep →
      env.openOrderResp.retCode ≠ some 0 →
      (webhook inp env).1 = some ⟨"error", some (Reason.payload env.openOrderResp), 200, none, none⟩ ∧
      execCalls (webhook inp env).2 = []) ∧
    (∀ (inp : Input) (env : Env) (sym : String) (pos : Position), inp.symbol = some sym → sym ≠ "" →
      strLower (inp.side.getD "") = "exit" →
      env.positions.find? (fun p => p.side == "Buy" && decide (0 < p.size)) = some pos →
      env.closeOrderResp.retCode ≠ some 0 →
      (webhook inp env).1 = some ⟨"error", some (Reason.payload env.closeOrderResp), 200, none, none⟩ ∧
      execCalls (webhook inp env).2 = []) := by
  constructor
  · intro inp env sym hs hne hcmd hp hst hrej
    rw [webhook_buy inp env sym hs hne hcmd]
    unfold openPath
    dsimp only
    rw [if_neg (by simp [not_or, hp.not_le, hst.not_le]), if_pos hrej]
    exact ⟨rfl, rfl⟩
  · intro inp env sym pos hs hne hcmd hfind hrej
    rw [webhook_exit inp env sym hs hne hcmd]
    unfold closePath
    rw [hfind]
    dsimp only
    rw [if_pos hrej]
    exact ⟨rfl, rfl⟩

/-- C5 witness: with both order submissions rejected with retCode 10001,
the open and the close invocation each return the error outcome with the
rejection payload and issue no fill query. -/
theorem rejected_no_fill_query_witness :
    ((webhook ⟨some "BTCUSDT", some "buy"⟩ envRej).1 =
        some ⟨"error", some (Reason.payload ⟨some 10001, none⟩), 200, none, none⟩ ∧
      execCalls (webhook ⟨some "BTCUSDT", some "buy"⟩ envRej).2 = []) ∧
    ((webhook ⟨some "BTCUSDT", some "exit"⟩ envRej).1 =
        some ⟨"error", some (Reason.payload ⟨some 10001, none⟩), 200, none, none⟩ ∧
      execCalls (webhook ⟨some "BTCUSDT", some "exit"⟩ envRej).2 = []) := by
  constructor
  · exact rejected_no_fill_query.1 ⟨some "BTCUSDT", some "buy"⟩ envRej "BTCUSDT" rfl
      (by decide) (by decide) (by decide) (by decide) (by decide)
  · exact rejected_no_fill_query.2 ⟨some "BTCUSDT", some "exit"⟩ envRej "BTCUSDT"
      ⟨"Buy", 3/50, 50000⟩ rfl (by decide) (by decide) (by decide) (by decide)

/-- C6 (amended): the balance fetch returns zero without raising on every
response whose status code is non-success, and returns the reported
available balance (missing field counted as zero) on every success
response whose result list has at least one entry; a success response
lacking the result object or the entry raises. -/
theorem wallet_balance_soft (resp : WalletResp) :
    (resp.retCode ≠ some 0 → get_wallet_balance resp = some 0) ∧
    (∀ (res : WalletResult) (e : WalletEntry) (rest : List WalletEntry),
      resp.retCode = some 0 → resp.result = some res → res.list = e :: rest →
      get_wallet_balance resp = some (e.totalAvailableBalance.getD 0)) := by
  constructor
  · intro h
    simp [get_wallet_balance, h]
  · intro res e rest hrc hres hlist
    simp [get_wallet_balance, hrc, hres, hlist]

/-- C6 counterexample: a success response whose result list is empty
makes the balance fetch raise an IndexError (modelled as none) instead of
returning a balance, so the never-throws part of the claim fails. -/
theorem wallet_balance_counterexample :
    get_wallet_balance ⟨some 0, some ⟨[]⟩⟩ = none := by decide

/-- C6 witness: a failure response with retCode 10016 yields balance
zero, and a success response reporting 250 yields 250. -/
theorem wallet_balance_soft_witness :
    get_wallet_balance ⟨some 10016, none⟩ = some 0 ∧
    get_wallet_balance ⟨some 0, some ⟨[⟨some 250⟩]⟩⟩ = some 250 := by
  constructor
  · exact (wallet_balance_soft ⟨some 10016, none⟩).1 (by decide)
  · exact (wallet_balance_soft ⟨some 0, some ⟨[⟨some 250⟩]⟩⟩).2 ⟨[⟨some 250⟩]⟩ ⟨some 250⟩ []
      rfl rfl rfl

/-- C7 (amended): the signature is the hex HMAC-SHA256, keyed by the
secret, of the concatenation of timestamp, API key, receive window and
canonical payload; for POST the canonical payload is the compact
key-sorted JSON serialization, so two POST calls with the same timestamp
and the same body contents in any key order produce the same signature;
for GET it is the key=value pairs joined with ampersands in the given
parameter order, so GET signatures depend on that order. -/
theorem sign_canonical :
    (∀ (k s ts payload query : String),
      sign_request (some k) (some s) ts payload query =
        some (bytesToHex (hmacSha256 (strBytes s)
          (strBytes (ts ++ k ++ RECV_WINDOW ++ (if payload = "" then query else payload)))))) ∧
    (∀ (k s ts : String) (params : List (String × String)),
      http_get_signature (some k) (some s) ts params =
        some (bytesToHex (hmacSha256 (strBytes s)
          (strBytes (ts ++ k ++ RECV_WINDOW ++ buildQuery params))))) ∧
    (∀ (k s ts : String) (b1 b2 : List (String × JVal)), b1.Perm b2 →
      (b1.map Prod.fst).Nodup →
      http_post_signature (some k) (some s) ts b1 =
        http_post_signature (some k) (some s) ts b2) := by
  refine ⟨fun k s ts payload query => rfl, fun k s ts params => rfl, ?_⟩
  intro k s ts b1 b2 hp hn
  unfold http_post_signature
  rw [json_dumps_sorted_perm b1 b2 hp hn]

/-- C7 counterexample: two GET calls with the same timestamp and the same
parameter contents in swapped order produce different signatures, because
the query string is joined in dictionary order rather than in a
canonical key order, refuting the order-independence part of the claim. -/
theorem sign_canonical_counterexample :
    http_get_signature (some "key") (some "secret") "1700000000000"
        [("a", "1"), ("b", "2")] ≠
      http_get_signature (some "key") (some "secret") "1700000000000"
        [("b", "2"), ("a", "1")] := by decide

/-- C7 witness: two POST bodies with the same two entries in swapped
order are a permutation with distinct keys and produce the same
signature. -/
theorem sign_canonical_witness :
    ([("a", JVal.num 1), ("b", JVal.str "x")] : List (String × JVal)).Perm
        [("b", JVal.str "x"), ("a", JVal.num 1)] ∧
    http_post_signature (some "key") (some "secret") "1700000000000"
        [("a", JVal.num 1), ("b", JVal.str "x")] =
      http_post_signature (some "key") (some "secret") "1700000000000"
        [("b", JVal.str "x"), ("a", JVal.num 1)] := by
  refine ⟨by decide, sign_canonical.2.2 "key" "secret" "1700000000000" _ _ (by decide) (by decide)⟩

/-- C8: with present but empty credentials the signing helper silently
produces a signature instead of failing, while an absent API key or
secret makes it raise; the code therefore violates the claim that empty
credentials fail loudly. -/
theorem sign_empty_credentials :
    (sign_request (some "") (some "") "1700000000000" "x" "").isSome = true ∧
    sign_request none (some "secret") "1700000000000" "x" "" = none ∧
    sign_request (some "key") none "1700000000000" "x" "" = none :=
  ⟨rfl, rfl, rfl⟩

/-- C9 (amended): a request with a missing or empty symbol or a missing
or empty side yields the ignored outcome with HTTP 200 and no exchange
call, and so does a request whose side lowercases to something other than
buy or exit; no such request escapes as a transport failure. -/
theorem ignored_requests :
    (∀ (inp : Input) (env : Env),
      (inp.symbol = none ∨ inp.symbol = some "" ∨ strLower (inp.side.getD "") = "") →
      webhook inp env =
        (some ⟨"ignored", some (Reason.text "missing symbol or side"), 200, none, none⟩, [])) ∧
    (∀ (inp : Input) (env : Env) (sym : String), inp.symbol = some sym → sym ≠ "" →
      strLower (inp.side.getD "") ≠ "" → strLower (inp.side.getD "") ≠ "buy" →
      strLower (inp.side.getD "") ≠ "exit" →
      webhook inp env = (some ⟨"ignored", none, 200, none, none⟩, [])) := by
  constructor
  · intro inp env h
    unfold webhook
    rw [if_pos h]
  · intro inp env sym hs hne h1 h2 h3
    unfold webhook
    dsimp only
    rw [if_neg (by simp [hs, hne, h1]), if_neg h2, if_neg h3]

/-- C9 counterexample: the side value BUY is not the literal buy or exit,
yet the handler lowercases it, issues exchange calls (the set-leverage
call is in the trace) and answers ok instead of ignored, refuting the
claim read over the raw side value. -/
theorem ignored_requests_counterexample :
    Call.setLeverage ∈ (webhook ⟨some "BTCUSDT", some "BUY"⟩ envMain).2 ∧
    Option.map Response.status (webhook ⟨some "BTCUSDT", some "BUY"⟩ envMain).1 = some "ok" := by
  decide

/-- C9 witness: a request without a symbol and a request with side hold
are both ignored with HTTP 200 and an empty call trace. -/
theorem ignored_requests_witness :
    webhook ⟨none, some "buy"⟩ envMain =
      (some ⟨"ignored", some (Reason.text "missing symbol or side"), 200, none, none⟩, []) ∧
    webhook ⟨some "BTCUSDT", some "hold"⟩ envMain =
      (some ⟨"ignored", none, 200, none, none⟩, []) := by
  constructor
  · exact ignored_requests.1 ⟨none, some "buy"⟩ envMain (Or.inl rfl)
  · exact ignored_requests.2 ⟨some "BTCUSDT", some "hold"⟩ envMain "BTCUSDT" rfl
      (by decide) (by decide) (by decide) (by decide)

/-- C10: every webhook invocation that completes without raising returns
HTTP status 200, whatever the JSON status field says. -/
theorem always_http_200 (inp : Input) (env : Env) (r : Response)
    (h : (webhook inp env).1 = some r) : r.httpCode = 200 := by
  unfold webhook at h
  dsimp only at h
  split at h
  · cases h; rfl
  · split at h
    · exact openPath_code env r h
    · split at h
      · exact closePath_code env r h
      · cases h; rfl

/-- C10 witness: the completed close invocation of the end-to-end
scenario returns HTTP status 200. -/
theorem always_http_200_witness :
    Response.httpCode ⟨"ok", none, 200, none, some ⟨51000, 60, 1/2, 119/2, 119/20⟩⟩ = 200 := by
  exact always_http_200 ⟨some "BTCUSDT", some "exit"⟩ envMain _ (by decide)
